import Mathlib

/-!
Verification development for `sentinelhub/sentinelhub_batch.py`, the Sentinel Hub Batch
API client.  The Python module is shallowly embedded below: Python values are modelled by
the inductive type `PyVal`, Python dicts by association lists with Python's
insertion-order/override semantics, and the stateful pieces (the cached request
description, the polling monitor) by explicit state passing and a fuel-indexed loop over
an environment of server responses.
-/

/-- A Python value as it occurs in this module's data flow: `None`, booleans, integers,
strings, lists and (string-keyed) dicts.  JSON payloads sent to and received from the
service are such values. -/
inductive PyVal where
  | none
  | bool (b : Bool)
  | int (n : Int)
  | str (s : String)
  | list (elems : List PyVal)
  | dict (fields : List (String × PyVal))

/-- A Python dict with string keys, in insertion order. -/
abbrev Dict := List (String × PyVal)

/-- Python truthiness (`if x:`) for the values above: `None`, `False`, `0`, `''` and
empty containers are falsy. -/
def pyTruthy : PyVal → Bool
  | .none => false
  | .bool b => b
  | .int n => n != 0
  | .str s => s != ""
  | .list l => !l.isEmpty
  | .dict d => !d.isEmpty

/-- Whether a value is Python's `None`. -/
def pyIsNone : PyVal → Bool
  | .none => true
  | _ => false

/-- Python `str(x)` for the scalar values this module interpolates into f-strings
(request ids, tile ids, statuses); containers are not interpolated by the module. -/
def pyStr : PyVal → String
  | .none => "None"
  | .bool true => "True"
  | .bool false => "False"
  | .int n => toString n
  | .str s => s
  | .list _ => "<list>"
  | .dict _ => "<dict>"

/-- Dict lookup `d[k]` / `d.get(k)`: the value of the first entry with key `k`. -/
def dictLookup : Dict → String → Option PyVal
  | [], _ => Option.none
  | p :: rest, k => if p.1 = k then some p.2 else dictLookup rest k

/-- Python `k in d`. -/
def dictHasKey (d : Dict) (k : String) : Bool :=
  (dictLookup d k).isSome

/-- Setting key `k` to `v` in dict `d`: replace in place when the key exists (keeping
insertion order), append otherwise — Python dict assignment semantics. -/
def dictUpdate (d : Dict) (k : String) (v : PyVal) : Dict :=
  if dictHasKey d k then d.map (fun p => if p.1 = k then (k, v) else p)
  else d ++ [(k, v)]

/-- Python `{**a, **b}`: entries of `b` merged into `a`, later keys overriding. -/
def dictUnion (a b : Dict) : Dict :=
  b.foldl (fun acc p => dictUpdate acc p.1 p.2) a

/-- Modelled from the spec: `remove_undefined` is imported from `sh_utils`, which is not
part of this module's source.  Per the spec's "omit unset" policy, payload builders drop
fields left unset (`None`) entirely — they are never sent as explicit nulls — while
explicitly passed values such as `False` and `0` are kept. -/
def remove_undefined (d : Dict) : Dict :=
  d.filter (fun p => !(pyIsNone p.2))

/-- The dict literal built inside `SentinelHubBatch.output` before merging `kwargs` and
dropping unset fields (source lines 167-176). -/
def SentinelHubBatch.outputNamedParams (default_tile_path overwrite skip_existing
    cog_output cog_parameters create_collection collection_id responses : PyVal) : Dict :=
  [("defaultTilePath", default_tile_path),
   ("overwrite", overwrite),
   ("skipExisting", skip_existing),
   ("cogOutput", cog_output),
   ("cogParameters", cog_parameters),
   ("createCollection", create_collection),
   ("collectionId", collection_id),
   ("responses", responses)]

/-- `SentinelHubBatch.output`: builds the output sub-payload from named parameters and
`kwargs`, dropping unset fields via `remove_undefined`. -/
def SentinelHubBatch.output (default_tile_path overwrite skip_existing cog_output
    cog_parameters create_collection collection_id responses : PyVal)
    (kwargs : Dict) : Dict :=
  remove_undefined (dictUnion
    (SentinelHubBatch.outputNamedParams default_tile_path overwrite skip_existing
      cog_output cog_parameters create_collection collection_id responses) kwargs)

/-- The dict literal built inside `SentinelHubBatch.create` before merging `kwargs` and
dropping unset fields (source lines 96-103). -/
def SentinelHubBatch.createNamedParams (sentinelhub_request tiling_grid output
    bucket_name description : PyVal) : Dict :=
  [("processRequest", sentinelhub_request),
   ("tilingGrid", tiling_grid),
   ("output", output),
   ("bucketName", bucket_name),
   ("description", description)]

/-- The merged payload POSTed by `SentinelHubBatch.create` (source line 104:
`payload = remove_undefined(payload)`). -/
def SentinelHubBatch.createPayload (sentinelhub_request tiling_grid output bucket_name
    description : PyVal) (kwargs : Dict) : Dict :=
  remove_undefined (dictUnion
    (SentinelHubBatch.createNamedParams sentinelhub_request tiling_grid output
      bucket_name description) kwargs)

/-- The keys of a dict, in order. -/
def dictKeys (d : Dict) : List String :=
  d.map Prod.fst

theorem dictHasKey_iff_mem_keys (d : Dict) (k : String) :
    dictHasKey d k = true ↔ k ∈ dictKeys d := by
  induction d with
  | nil => simp [dictHasKey, dictLookup, dictKeys]
  | cons p rest ih =>
    by_cases hp : p.1 = k
    · simp [dictHasKey, dictLookup, dictKeys, hp]
    · simp only [dictHasKey, dictLookup, dictKeys, List.map_cons, List.mem_cons, if_neg hp]
      rw [← dictKeys, ← dictHasKey, ih]
      constructor
      · intro h; exact Or.inr h
      · rintro (h | h)
        · exact absurd h.symm hp
        · exact h

theorem dictLookup_eq_none_of_not_mem_keys (d : Dict) (k : String)
    (h : k ∉ dictKeys d) : dictLookup d k = Option.none := by
  have hk : ¬ dictHasKey d k = true := fun hh => h ((dictHasKey_iff_mem_keys d k).mp hh)
  unfold dictHasKey at hk
  cases hl : dictLookup d k with
  | none => rfl
  | some v => rw [hl] at hk; simp at hk

theorem dictLookup_map_set (d : Dict) (k j : String) (v : PyVal) (h : j ≠ k) :
    dictLookup (d.map (fun p => if p.1 = k then (k, v) else p)) j = dictLookup d j := by
  induction d with
  | nil => rfl
  | cons p rest ih =>
    by_cases hp : p.1 = k
    · have hjk : ¬ ((k : String) = j) := fun hh => h hh.symm
      simp [dictLookup, hp, hjk, ih, fun hh : p.1 = j => h (hh ▸ hp)]
    · by_cases hj : p.1 = j
      · simp [dictLookup, hp, hj, h]
      · simp [dictLookup, hp, hj, ih]

theorem dictLookup_append_single_ne (d : Dict) (k j : String) (v : PyVal) (h : j ≠ k) :
    dictLookup (d ++ [(k, v)]) j = dictLookup d j := by
  induction d with
  | nil =>
    have hjk : ¬ ((k : String) = j) := fun hh => h hh.symm
    simp [dictLookup, hjk]
  | cons p rest ih =>
    by_cases hp : p.1 = j
    · simp [dictLookup, hp]
    · simp [dictLookup, hp, ih]

theorem dictLookup_update_ne (d : Dict) (k j : String) (v : PyVal) (h : j ≠ k) :
    dictLookup (dictUpdate d k v) j = dictLookup d j := by
  unfold dictUpdate
  split
  · exact dictLookup_map_set d k j v h
  · exact dictLookup_append_single_ne d k j v h

theorem dictLookup_union_of_not_hasKey (base kw : Dict) (j : String)
    (h : dictHasKey kw j = false) :
    dictLookup (dictUnion base kw) j = dictLookup base j := by
  induction kw generalizing base with
  | nil => rfl
  | cons p rest ih =>
    have hp : ¬ (p.1 = j) := by
      intro hh
      simp [dictHasKey, dictLookup, hh] at h
    have hrest : dictHasKey rest j = false := by
      simp only [dictHasKey, dictLookup, if_neg hp] at h ⊢
      exact h
    show dictLookup (dictUnion (dictUpdate base p.1 p.2) rest) j = dictLookup base j
    rw [ih (dictUpdate base p.1 p.2) hrest,
      dictLookup_update_ne base p.1 j p.2 (fun hh => hp hh.symm)]

theorem dictKeys_map_set (d : Dict) (k : String) (v : PyVal) :
    dictKeys (d.map (fun p => if p.1 = k then (k, v) else p)) = dictKeys d := by
  induction d with
  | nil => rfl
  | cons p rest ih =>
    have hhead : (if p.1 = k then ((k, v) : String × PyVal) else p).1 = p.1 := by
      by_cases hp : p.1 = k
      · simp [hp]
      · simp [hp]
    simp only [dictKeys, List.map_cons] at ih ⊢
    rw [hhead, ih]

theorem dictKeys_nodup_update (d : Dict) (k : String) (v : PyVal)
    (h : (dictKeys d).Nodup) : (dictKeys (dictUpdate d k v)).Nodup := by
  unfold dictUpdate
  split
  · rw [dictKeys_map_set]; exact h
  · rename_i hk
    have hkm : k ∉ dictKeys d := by
      intro hmem
      rw [← dictHasKey_iff_mem_keys] at hmem
      simp [hmem] at hk
    have : dictKeys (d ++ [(k, v)]) = dictKeys d ++ [k] := by
      simp [dictKeys]
    rw [this]
    simp [List.nodup_append, h, hkm]

theorem dictKeys_nodup_union (base kw : Dict) (h : (dictKeys base).Nodup) :
    (dictKeys (dictUnion base kw)).Nodup := by
  induction kw generalizing base with
  | nil => exact h
  | cons p rest ih => exact ih (dictUpdate base p.1 p.2) (dictKeys_nodup_update base p.1 p.2 h)

theorem dictLookup_remove_undefined (d : Dict) (h : (dictKeys d).Nodup) (j : String) :
    dictLookup (remove_undefined d) j =
      (dictLookup d j).bind (fun v => if pyIsNone v then Option.none else some v) := by
  induction d with
  | nil => rfl
  | cons p rest ih =>
    have hnd : (dictKeys rest).Nodup := (List.nodup_cons.mp h).2
    have hp1 : p.1 ∉ dictKeys rest := (List.nodup_cons.mp h).1
    by_cases hn : pyIsNone p.2
    · have hfilter : remove_undefined (p :: rest) = remove_undefined rest := by
        simp [remove_undefined, List.filter, hn]
      rw [hfilter, ih hnd]
      by_cases hj : p.1 = j
      · have hrest : dictLookup rest j = Option.none :=
          dictLookup_eq_none_of_not_mem_keys rest j (hj ▸ hp1)
        rw [hrest, show dictLookup (p :: rest) j = some p.2 by simp [dictLookup, hj]]
        simp [hn]
      · rw [show dictLookup (p :: rest) j = dictLookup rest j by simp [dictLookup, hj]]
    · have hfilter : remove_undefined (p :: rest) = p :: remove_undefined rest := by
        simp [remove_undefined, List.filter, hn]
      rw [hfilter]
      by_cases hj : p.1 = j
      · rw [show dictLookup (p :: remove_undefined rest) j = some p.2 by
          simp [dictLookup, hj]]
        rw [show dictLookup (p :: rest) j = some p.2 by simp [dictLookup, hj]]
        simp [hn]
      · rw [show dictLookup (p :: remove_undefined rest) j =
            dictLookup (remove_undefined rest) j by simp [dictLookup, hj]]
        rw [show dictLookup (p :: rest) j = dictLookup rest j by simp [dictLookup, hj]]
        exact ih hnd

theorem remove_undefined_no_none (d : Dict) (p : String × PyVal)
    (h : p ∈ remove_undefined d) : pyIsNone p.2 = false := by
  unfold remove_undefined at h
  have := List.of_mem_filter h
  simpa using this

theorem remove_undefined_union_lookup (base kw : Dict) (j : String)
    (hnodup : (dictKeys base).Nodup) (hkw : dictHasKey kw j = false) :
    dictLookup (remove_undefined (dictUnion base kw)) j =
      (dictLookup base j).bind (fun v => if pyIsNone v then Option.none else some v) := by
  rw [dictLookup_remove_undefined (dictUnion base kw) (dictKeys_nodup_union base kw hnodup) j,
    dictLookup_union_of_not_hasKey base kw j hkw]

/-- C5: in the payloads built by `SentinelHubBatch.output` and by `SentinelHubBatch.create`,
a named parameter left unset (`None`) never appears as a key of the result (provided
`kwargs` does not supply that key itself), a parameter explicitly passed a non-`None`
value — in particular `False` or `0` — appears as a key with exactly that value, and no
entry of the result ever carries an explicit `None`/null value. -/
theorem payload_builders_omit_unset
    (default_tile_path overwrite skip_existing cog_output cog_parameters create_collection
      collection_id responses sentinelhub_request tiling_grid outp bucket_name
      description : PyVal) (kwargs : Dict) (j : String)
    (hj : dictHasKey kwargs j = false) :
    (dictLookup (SentinelHubBatch.outputNamedParams default_tile_path overwrite
        skip_existing cog_output cog_parameters create_collection collection_id responses)
        j = some PyVal.none →
      dictHasKey (SentinelHubBatch.output default_tile_path overwrite skip_existing
        cog_output cog_parameters create_collection collection_id responses kwargs)
        j = false) ∧
    (∀ v, dictLookup (SentinelHubBatch.outputNamedParams default_tile_path overwrite
        skip_existing cog_output cog_parameters create_collection collection_id responses)
        j = some v → pyIsNone v = false →
      dictLookup (SentinelHubBatch.output default_tile_path overwrite skip_existing
        cog_output cog_parameters create_collection collection_id responses kwargs)
        j = some v) ∧
    (∀ p ∈ SentinelHubBatch.output default_tile_path overwrite skip_existing cog_output
        cog_parameters create_collection collection_id responses kwargs,
      pyIsNone p.2 = false) ∧
    (dictLookup (SentinelHubBatch.createNamedParams sentinelhub_request tiling_grid outp
        bucket_name description) j = some PyVal.none →
      dictHasKey (SentinelHubBatch.createPayload sentinelhub_request tiling_grid outp
        bucket_name description kwargs) j = false) ∧
    (∀ v, dictLookup (SentinelHubBatch.createNamedParams sentinelhub_request tiling_grid
        outp bucket_name description) j = some v → pyIsNone v = false →
      dictLookup (SentinelHubBatch.createPayload sentinelhub_request tiling_grid outp
        bucket_name description kwargs) j = some v) ∧
    (∀ p ∈ SentinelHubBatch.createPayload sentinelhub_request tiling_grid outp bucket_name
        description kwargs, pyIsNone p.2 = false) := by
  have hnodup_out : (dictKeys (SentinelHubBatch.outputNamedParams default_tile_path
      overwrite skip_existing cog_output cog_parameters create_collection collection_id
      responses)).Nodup := by
    simp [dictKeys, SentinelHubBatch.outputNamedParams]
  have hnodup_create : (dictKeys (SentinelHubBatch.createNamedParams sentinelhub_request
      tiling_grid outp bucket_name description)).Nodup := by
    simp [dictKeys, SentinelHubBatch.createNamedParams]
  refine ⟨?_, ?_, ?_, ?_, ?_, ?_⟩
  · intro hset
    unfold SentinelHubBatch.output
    unfold dictHasKey
    rw [remove_undefined_union_lookup _ kwargs j hnodup_out hj, hset]
    rfl
  · intro v hv hvn
    unfold SentinelHubBatch.output
    rw [remove_undefined_union_lookup _ kwargs j hnodup_out hj, hv]
    simp [hvn]
  · intro p hp
    exact remove_undefined_no_none _ p hp
  · intro hset
    unfold SentinelHubBatch.createPayload
    unfold dictHasKey
    rw [remove_undefined_union_lookup _ kwargs j hnodup_create hj, hset]
    rfl
  · intro v hv hvn
    unfold SentinelHubBatch.createPayload
    rw [remove_undefined_union_lookup _ kwargs j hnodup_create hj, hv]
    simp [hvn]
  · intro p hp
    exact remove_undefined_no_none _ p hp

/-- Witness for C5 at concrete inputs: with every parameter unset except
`overwrite := False`, the key `defaultTilePath` is absent from the built payload while
`overwrite` is present with value `False`. -/
theorem payload_builders_omit_unset_witness :
    dictHasKey (SentinelHubBatch.output PyVal.none (PyVal.bool false) PyVal.none PyVal.none
      PyVal.none PyVal.none PyVal.none PyVal.none []) "defaultTilePath" = false ∧
    dictLookup (SentinelHubBatch.output PyVal.none (PyVal.bool false) PyVal.none PyVal.none
      PyVal.none PyVal.none PyVal.none PyVal.none []) "overwrite" =
      some (PyVal.bool false) := by
  constructor
  · exact (payload_builders_omit_unset PyVal.none (PyVal.bool false) PyVal.none PyVal.none
      PyVal.none PyVal.none PyVal.none PyVal.none PyVal.none PyVal.none PyVal.none
      PyVal.none PyVal.none [] "defaultTilePath" rfl).1 rfl
  · exact (payload_builders_omit_unset PyVal.none (PyVal.bool false) PyVal.none PyVal.none
      PyVal.none PyVal.none PyVal.none PyVal.none PyVal.none PyVal.none PyVal.none
      PyVal.none PyVal.none [] "overwrite" rfl).2.1 (PyVal.bool false) rfl rfl

/-- The Python exceptions raised by this module. -/
inductive PyError where
  | valueError (msg : String)
  | keyError (key : String)
  | typeError (msg : String)
  | runtimeError (msg : String)

/-- The state held by a `SentinelHubBatch` handle: the request id and the cached request
description (`_request_info`, `PyVal.none` when not yet fetched).  The configuration and
transport client are external collaborators and are passed through untouched, so they are
not part of the modelled state. -/
structure BatchState where
  request_id : PyVal
  request_info : PyVal

/-- Python subscripting `v[k]` on a (hoped-for) dict: `KeyError` when the key is absent,
`TypeError` when the value is not a dict. -/
def pySubscript (v : PyVal) (k : String) : Except PyError PyVal :=
  match v with
  | .dict d =>
    match dictLookup d k with
    | some x => Except.ok x
    | Option.none => Except.error (.keyError k)
  | _ => Except.error (.typeError "object is not subscriptable")

/-- `SentinelHubBatch.__init__` (source lines 36-53): raises `ValueError` when neither
`request_id` nor `request_info` is truthy; otherwise the stored id is `request_id` when
truthy, else `request_info['id']`, and the given `request_info` is cached as-is. -/
def SentinelHubBatch.init (request_id request_info : PyVal) : Except PyError BatchState :=
  if !(pyTruthy request_id || pyTruthy request_info) then
    Except.error (.valueError "One of the parameters request_id and request_info has to be given")
  else
    match (if pyTruthy request_id then Except.ok request_id
           else pySubscript request_info "id") with
    | Except.error e => Except.error e
    | Except.ok rid =>
      Except.ok { request_id := rid, request_info := request_info }

/-- C2 counterexample: supplying both `request_id` and `request_info` does not raise —
construction succeeds and keeps the explicitly passed id, refuting the claim that the
constructor enforces an exactly-one requirement. -/
theorem init_both_supplied_succeeds :
    SentinelHubBatch.init (PyVal.str "job-1")
        (PyVal.dict [("id", PyVal.str "job-2")]) =
      Except.ok { request_id := PyVal.str "job-1",
                  request_info := PyVal.dict [("id", PyVal.str "job-2")] } := by
  rfl

/-- C2 (amended): constructing a `SentinelHubBatch` handle requires at least one truthy
argument: supplying neither `request_id` nor `request_info` raises `ValueError`;
supplying a truthy `request_id` alone succeeds; supplying a truthy `request_info` alone
(a fetched description, which carries its `id`) succeeds; and supplying both also
succeeds, with `request_id` taking precedence as the stored id. -/
theorem init_requires_at_least_one (request_id request_info : PyVal) :
    (SentinelHubBatch.init PyVal.none PyVal.none =
      Except.error (.valueError
        "One of the parameters request_id and request_info has to be given")) ∧
    (pyTruthy request_id = true →
      SentinelHubBatch.init request_id PyVal.none =
        Except.ok { request_id := request_id, request_info := PyVal.none }) ∧
    (∀ d v, dictLookup d "id" = some v → d ≠ [] →
      SentinelHubBatch.init PyVal.none (PyVal.dict d) =
        Except.ok { request_id := v, request_info := PyVal.dict d }) ∧
    (pyTruthy request_id = true →
      SentinelHubBatch.init request_id request_info =
        Except.ok { request_id := request_id, request_info := request_info }) := by
  refine ⟨rfl, ?_, ?_, ?_⟩
  · intro h
    simp [SentinelHubBatch.init, h]
  · intro d v hv hd
    have htruthy : pyTruthy (PyVal.dict d) = true := by
      cases d with
      | nil => exact absurd rfl hd
      | cons p rest => rfl
    simp [SentinelHubBatch.init, htruthy, pyTruthy, pySubscript, hv, hd]
  · intro h
    simp [SentinelHubBatch.init, h]

/-- Witness for C2's amended theorem at concrete inputs. -/
theorem init_requires_at_least_one_witness :
    (SentinelHubBatch.init PyVal.none PyVal.none =
      Except.error (.valueError
        "One of the parameters request_id and request_info has to be given")) ∧
    (SentinelHubBatch.init (PyVal.str "abc") PyVal.none =
      Except.ok { request_id := PyVal.str "abc", request_info := PyVal.none }) ∧
    (SentinelHubBatch.init PyVal.none (PyVal.dict [("id", PyVal.str "xyz")]) =
      Except.ok { request_id := PyVal.str "xyz",
                  request_info := PyVal.dict [("id", PyVal.str "xyz")] }) := by
  have h := init_requires_at_least_one (PyVal.str "abc") PyVal.none
  exact ⟨h.1, h.2.1 rfl,
    (init_requires_at_least_one PyVal.none (PyVal.dict [("id", PyVal.str "xyz")])).2.2.1
      [("id", PyVal.str "xyz")] (PyVal.str "xyz") rfl (by simp)⟩

/-- The fields of a batch request description that the status logic reads:
`info['status']`, `info.get('error', '')` (absent modelled as `Option.none`) and
`info['tileCount']`. -/
structure BatchInfo where
  status : String
  error : Option String
  tileCount : Nat

/-- The `status` argument of `raise_for_status`: a single string or a list of strings
(source lines 395-396 turn a single string into a one-element list). -/
inductive StatusArg where
  | str (s : String)
  | list (l : List String)

/-- The `RuntimeError` message assembled by `raise_for_status` (source lines 399-402):
the request id, the status, and — only when the server reported a truthy error message —
that message, quoted. -/
def raiseMessage (request_id : PyVal) (info : BatchInfo) : String :=
  let error_message := info.error.getD ""
  let formatted_error_message :=
    if error_message = "" then ""
    else " and error message: \"" ++ error_message ++ "\""
  "Raised for batch request " ++ pyStr request_id ++ " with status " ++ info.status ++
    formatted_error_message

/-- `SentinelHubBatch.raise_for_status` (source lines 388-402): normalises the `status`
argument to a list and raises `RuntimeError` exactly when the cached status is in it. -/
def SentinelHubBatch.raise_for_status (request_id : PyVal) (info : BatchInfo)
    (status : StatusArg) : Except PyError Unit :=
  let statusList := match status with
    | .str s => [s]
    | .list l => l
  if info.status ∈ statusList then
    Except.error (.runtimeError (raiseMessage request_id info))
  else
    Except.ok ()

/-- C6: `raise_for_status` raises a `RuntimeError` if and only if the cached status is a
member of the given status set (a single string being treated as a one-element set); for
every status outside the set it does not raise; and the raised message carries the job
id, the status and any server-reported error text. -/
theorem raise_for_status_iff (request_id : PyVal) (info : BatchInfo) (s : String)
    (statuses : List String) :
    (SentinelHubBatch.raise_for_status request_id info (.str s) =
      SentinelHubBatch.raise_for_status request_id info (.list [s])) ∧
    (info.status ∈ statuses →
      SentinelHubBatch.raise_for_status request_id info (.list statuses) =
        Except.error (.runtimeError (raiseMessage request_id info))) ∧
    (info.status ∉ statuses →
      SentinelHubBatch.raise_for_status request_id info (.list statuses) =
        Except.ok ()) ∧
    (∀ e, info.error = some e → e ≠ "" →
      raiseMessage request_id info =
        "Raised for batch request " ++ pyStr request_id ++ " with status " ++ info.status
          ++ (" and error message: \"" ++ e ++ "\"")) ∧
    (info.error = Option.none →
      raiseMessage request_id info =
        "Raised for batch request " ++ pyStr request_id ++ " with status "
          ++ info.status) := by
  refine ⟨rfl, ?_, ?_, ?_, ?_⟩
  · intro h
    simp [SentinelHubBatch.raise_for_status, h]
  · intro h
    simp [SentinelHubBatch.raise_for_status, h]
  · intro e he hne
    simp [raiseMessage, he, hne]
  · intro he
    simp [raiseMessage, he]

/-- Witness for C6 at concrete inputs: status `FAILED` raises against the set
`[FAILED, CANCELED]` with the full message, and status `DONE` does not raise. -/
theorem raise_for_status_iff_witness :
    (SentinelHubBatch.raise_for_status (PyVal.str "job-1")
        { status := "FAILED", error := some "boom", tileCount := 3 }
        (.list ["FAILED", "CANCELED"]) =
      Except.error (.runtimeError
        "Raised for batch request job-1 with status FAILED and error message: \"boom\"")) ∧
    (SentinelHubBatch.raise_for_status (PyVal.str "job-1")
        { status := "DONE", error := Option.none, tileCount := 3 }
        (.list ["FAILED", "CANCELED"]) = Except.ok ()) := by
  have h1 := raise_for_status_iff (PyVal.str "job-1")
    { status := "FAILED", error := some "boom", tileCount := 3 } "FAILED"
    ["FAILED", "CANCELED"]
  have h2 := raise_for_status_iff (PyVal.str "job-1")
    { status := "DONE", error := Option.none, tileCount := 3 } "DONE"
    ["FAILED", "CANCELED"]
  constructor
  · rw [h1.2.1 (by decide), h1.2.2.2.1 "boom" rfl (by decide)]
    rfl
  · exact h2.2.2.1 (by decide)

/-- The HTTP request types used by the module (`RequestType` in `constants.py`). -/
inductive RequestType where
  | GET
  | POST
  | PUT
  | DELETE
deriving DecidableEq

/-- A single HTTP request issued by this module: target URL, verb and JSON body
(`PyVal.none` when no body is sent). -/
structure HttpRequest where
  url : String
  request_type : RequestType
  post_values : PyVal

/-- Modelled from the spec: the transport client (`download/sentinelhub_client.py`) is
not under `src/`; per the spec's verb table ("GET (read/list), POST (create/action), PUT
(update), DELETE (delete)"), when `get_json` is called without an explicit request type
it uses POST when a post body is supplied and GET otherwise. -/
def getJsonRequestType (post_values : PyVal) (request_type : Option RequestType) :
    RequestType :=
  match request_type with
  | some t => t
  | Option.none => if pyIsNone post_values then RequestType.GET else RequestType.POST

/-- `SentinelHubBatch._get_batch_url` (source lines 588-593). -/
def SentinelHubBatch.getBatchUrl (sh_base_url : String) : String :=
  sh_base_url ++ "/api/v1/batch"

/-- `SentinelHubBatch._get_process_url` (source lines 567-574): appends `/process`, and
the request id when one is (truthily) given. -/
def SentinelHubBatch.getProcessUrl (sh_base_url : String) (request_id : PyVal) : String :=
  let url := SentinelHubBatch.getBatchUrl sh_base_url ++ "/process"
  if pyTruthy request_id then url ++ "/" ++ pyStr request_id else url

/-- `SentinelHubBatch._get_tiles_url` (source lines 558-565): appends `/tiles`, and the
tile id when one is (truthily) given. -/
def SentinelHubBatch.getTilesUrl (sh_base_url : String) (request_id tile_id : PyVal) :
    String :=
  let url := SentinelHubBatch.getProcessUrl sh_base_url request_id ++ "/tiles"
  if pyTruthy tile_id then url ++ "/" ++ pyStr tile_id else url

/-- `SentinelHubBatch._get_tiling_grids_url` (source lines 576-580). -/
def SentinelHubBatch.getTilingGridsUrl (sh_base_url : String) : String :=
  SentinelHubBatch.getBatchUrl sh_base_url ++ "/tilinggrids"

/-- `SentinelHubBatch._get_collections_url` (source lines 582-586). -/
def SentinelHubBatch.getCollectionsUrl (sh_base_url : String) : String :=
  SentinelHubBatch.getBatchUrl sh_base_url ++ "/collections"

/-- The request POSTed by `SentinelHubBatch.create` (source lines 106-108): the process
endpoint without an id, body the merged payload, verb inferred from the body. -/
def SentinelHubBatch.createRequest (sh_base_url : String) (payload : Dict) : HttpRequest :=
  { url := SentinelHubBatch.getProcessUrl sh_base_url PyVal.none,
    request_type := getJsonRequestType (PyVal.dict payload) Option.none,
    post_values := PyVal.dict payload }

/-- `SentinelHubBatch.update_info` (source lines 229-239): GETs the job description and
replaces the cached copy wholesale with the server's `response`. -/
def SentinelHubBatch.update_info (s : BatchState) (sh_base_url : String)
    (response : PyVal) : BatchState × HttpRequest :=
  ({ s with request_info := response },
   { url := SentinelHubBatch.getProcessUrl sh_base_url s.request_id,
     request_type := getJsonRequestType PyVal.none Option.none,
     post_values := PyVal.none })

/-- The `info` property (source lines 218-227): fetches once when nothing is cached,
otherwise returns the cached description unchanged. -/
def SentinelHubBatch.info (s : BatchState) (sh_base_url : String) (fetched : PyVal) :
    BatchState × PyVal :=
  if pyIsNone s.request_info then
    let s2 := (SentinelHubBatch.update_info s sh_base_url fetched).1
    (s2, s2.request_info)
  else (s, s.request_info)

/-- The dict literal built inside `SentinelHubBatch.update` before merging `kwargs` and
dropping unset fields (source lines 340-344). -/
def SentinelHubBatch.updateNamedParams (output description : PyVal) : Dict :=
  [("output", output), ("description", description)]

/-- `SentinelHubBatch.update` (source lines 325-347): PUTs the filtered payload to the
job endpoint and replaces the cached description wholesale with the server's `response`
(`self._request_info = self.client.get_json(...)`). -/
def SentinelHubBatch.update (s : BatchState) (sh_base_url : String)
    (output description : PyVal) (kwargs : Dict) (response : PyVal) :
    BatchState × HttpRequest :=
  let payload := remove_undefined
    (dictUnion (SentinelHubBatch.updateNamedParams output description) kwargs)
  ({ s with request_info := response },
   { url := SentinelHubBatch.getProcessUrl sh_base_url s.request_id,
     request_type := RequestType.PUT,
     post_values := PyVal.dict payload })

/-- `SentinelHubBatch.delete` (source lines 349-356): DELETE on the job endpoint; the
cached description is left untouched. -/
def SentinelHubBatch.delete (s : BatchState) (sh_base_url : String) :
    BatchState × HttpRequest :=
  (s, { url := SentinelHubBatch.getProcessUrl sh_base_url s.request_id,
        request_type := RequestType.DELETE,
        post_values := PyVal.none })

/-- `SentinelHubBatch._call_job` (source lines 550-556): POST to
`/process/{id}/{endpoint_name}`; the cached description is left untouched. -/
def SentinelHubBatch.call_job (s : BatchState) (sh_base_url : String)
    (endpoint_name : String) : BatchState × HttpRequest :=
  (s, { url := SentinelHubBatch.getProcessUrl sh_base_url s.request_id ++ "/"
          ++ endpoint_name,
        request_type := RequestType.POST,
        post_values := PyVal.none })

/-- `SentinelHubBatch.start_analysis` (source lines 358-363). -/
def SentinelHubBatch.start_analysis (s : BatchState) (sh_base_url : String) :
    BatchState × HttpRequest :=
  SentinelHubBatch.call_job s sh_base_url "analyse"

/-- `SentinelHubBatch.start_job` (source lines 365-370). -/
def SentinelHubBatch.start_job (s : BatchState) (sh_base_url : String) :
    BatchState × HttpRequest :=
  SentinelHubBatch.call_job s sh_base_url "start"

/-- `SentinelHubBatch.cancel_job` (source lines 372-378). -/
def SentinelHubBatch.cancel_job (s : BatchState) (sh_base_url : String) :
    BatchState × HttpRequest :=
  SentinelHubBatch.call_job s sh_base_url "cancel"

/-- `SentinelHubBatch.restart_job` (source lines 380-386). -/
def SentinelHubBatch.restart_job (s : BatchState) (sh_base_url : String) :
    BatchState × HttpRequest :=
  SentinelHubBatch.call_job s sh_base_url "restartpartial"

/-- `SentinelHubBatch.reprocess_tile` (source lines 438-446): POST via `_call_job` to
`tiles/{tile_id}/restart`. -/
def SentinelHubBatch.reprocess_tile (s : BatchState) (sh_base_url : String)
    (tile_id : PyVal) : BatchState × HttpRequest :=
  SentinelHubBatch.call_job s sh_base_url ("tiles/" ++ pyStr tile_id ++ "/restart")

/-- The request issued by `SentinelHubBatch.get_tile` (source lines 425-436). -/
def SentinelHubBatch.get_tile_request (sh_base_url : String) (request_id tile_id : PyVal) :
    HttpRequest :=
  { url := SentinelHubBatch.getTilesUrl sh_base_url request_id tile_id,
    request_type := getJsonRequestType PyVal.none Option.none,
    post_values := PyVal.none }

/-- The listing endpoint addressed by `SentinelHubBatch.iter_tiles` (source lines
404-423); page reads are GETs issued by the feature iterator. -/
def SentinelHubBatch.iter_tiles_request (sh_base_url : String) (request_id : PyVal) :
    HttpRequest :=
  { url := SentinelHubBatch.getTilesUrl sh_base_url request_id PyVal.none,
    request_type := RequestType.GET,
    post_values := PyVal.none }

/-- The request issued by `SentinelHubBatch.get_tiling_grid` (source lines 200-216). -/
def SentinelHubBatch.get_tiling_grid_request (sh_base_url : String) (grid_id : String) :
    HttpRequest :=
  { url := SentinelHubBatch.getTilingGridsUrl sh_base_url ++ "/" ++ grid_id,
    request_type := getJsonRequestType PyVal.none Option.none,
    post_values := PyVal.none }

/-- The request issued by `SentinelHubBatch.get_collection` (source lines 472-488). -/
def SentinelHubBatch.get_collection_request (sh_base_url : String)
    (collection_id : String) : HttpRequest :=
  { url := SentinelHubBatch.getCollectionsUrl sh_base_url ++ "/" ++ collection_id,
    request_type := getJsonRequestType PyVal.none Option.none,
    post_values := PyVal.none }

/-- The request issued by `SentinelHubBatch.create_collection` (source lines 490-506). -/
def SentinelHubBatch.create_collection_request (sh_base_url : String)
    (collection_payload : Dict) : HttpRequest :=
  { url := SentinelHubBatch.getCollectionsUrl sh_base_url,
    request_type := getJsonRequestType (PyVal.dict collection_payload) Option.none,
    post_values := PyVal.dict collection_payload }

/-- The request issued by `SentinelHubBatch.update_collection` (source lines 508-523). -/
def SentinelHubBatch.update_collection_request (sh_base_url : String)
    (collection_id : String) (collection_payload : Dict) : HttpRequest :=
  { url := SentinelHubBatch.getCollectionsUrl sh_base_url ++ "/" ++ collection_id,
    request_type := RequestType.PUT,
    post_values := PyVal.dict collection_payload }

/-- The request issued by `SentinelHubBatch.delete_collection` (source lines 525-539). -/
def SentinelHubBatch.delete_collection_request (sh_base_url : String)
    (collection_id : String) : HttpRequest :=
  { url := SentinelHubBatch.getCollectionsUrl sh_base_url ++ "/" ++ collection_id,
    request_type := RequestType.DELETE,
    post_values := PyVal.none }

/-- C4: every operation on a `SentinelHubBatch` handle either leaves the cached
description untouched (the action calls `start_analysis`, `start_job`, `cancel_job`,
`restart_job` and `delete`) or replaces it wholesale with the freshly fetched server
response (`update_info`, `update`, the first implicit `info` access); no operation
patches individual fields, so after `update` every field of the cache equals the
server's returned value, including fields not passed to `update`. -/
theorem cache_replaced_wholesale (s : BatchState) (sh_base_url : String)
    (output description response fetched : PyVal) (kwargs : Dict) :
    ((SentinelHubBatch.update s sh_base_url output description kwargs
        response).1.request_info = response) ∧
    ((SentinelHubBatch.update_info s sh_base_url response).1.request_info = response) ∧
    (pyIsNone s.request_info = true →
      (SentinelHubBatch.info s sh_base_url fetched).1.request_info = fetched) ∧
    (pyIsNone s.request_info = false →
      SentinelHubBatch.info s sh_base_url fetched = (s, s.request_info)) ∧
    (∀ endpoint_name,
      (SentinelHubBatch.call_job s sh_base_url endpoint_name).1 = s) ∧
    ((SentinelHubBatch.start_analysis s sh_base_url).1 = s) ∧
    ((SentinelHubBatch.start_job s sh_base_url).1 = s) ∧
    ((SentinelHubBatch.cancel_job s sh_base_url).1 = s) ∧
    ((SentinelHubBatch.restart_job s sh_base_url).1 = s) ∧
    ((SentinelHubBatch.delete s sh_base_url).1 = s) ∧
    (∀ d j, response = PyVal.dict d →
      pySubscript (SentinelHubBatch.update s sh_base_url output description kwargs
          response).1.request_info j =
        pySubscript (PyVal.dict d) j) := by
  refine ⟨rfl, rfl, ?_, ?_, fun _ => rfl, rfl, rfl, rfl, rfl, rfl, ?_⟩
  · intro h
    simp [SentinelHubBatch.info, SentinelHubBatch.update_info, h]
  · intro h
    simp [SentinelHubBatch.info, h]
  · intro d j hd
    subst hd
    rfl

/-- Witness for C4 at concrete inputs: a cached handle is left unchanged by `info`, an
uncached one gets the fetched description, and after `update` the cache is exactly the
server response, field by field. -/
theorem cache_replaced_wholesale_witness :
    ((SentinelHubBatch.info
        { request_id := PyVal.str "a", request_info := PyVal.none } "https://svc"
        (PyVal.dict [("id", PyVal.str "a")])).1.request_info =
      PyVal.dict [("id", PyVal.str "a")]) ∧
    (SentinelHubBatch.info
        { request_id := PyVal.str "a", request_info := PyVal.dict [("x", PyVal.int 1)] }
        "https://svc" (PyVal.dict []) =
      ({ request_id := PyVal.str "a", request_info := PyVal.dict [("x", PyVal.int 1)] },
        PyVal.dict [("x", PyVal.int 1)])) ∧
    (pySubscript (SentinelHubBatch.update
        { request_id := PyVal.str "a", request_info := PyVal.dict [("x", PyVal.int 1)] }
        "https://svc" PyVal.none PyVal.none []
        (PyVal.dict [("x", PyVal.int 2)])).1.request_info "x" =
      pySubscript (PyVal.dict [("x", PyVal.int 2)]) "x") := by
  refine ⟨?_, ?_, ?_⟩
  · exact (cache_replaced_wholesale
      { request_id := PyVal.str "a", request_info := PyVal.none } "https://svc"
      PyVal.none PyVal.none PyVal.none (PyVal.dict [("id", PyVal.str "a")]) []).2.2.1 rfl
  · exact (cache_replaced_wholesale
      { request_id := PyVal.str "a", request_info := PyVal.dict [("x", PyVal.int 1)] }
      "https://svc" PyVal.none PyVal.none PyVal.none (PyVal.dict []) []).2.2.2.1 rfl
  · exact (cache_replaced_wholesale
      { request_id := PyVal.str "a", request_info := PyVal.dict [("x", PyVal.int 1)] }
      "https://svc" PyVal.none PyVal.none (PyVal.dict [("x", PyVal.int 2)])
      PyVal.none []).2.2.2.2.2.2.2.2.2.2 [("x", PyVal.int 2)] "x" rfl

theorem getProcessUrl_of_ne (sh_base_url rid : String) (h : rid ≠ "") :
    SentinelHubBatch.getProcessUrl sh_base_url (PyVal.str rid) =
      SentinelHubBatch.getBatchUrl sh_base_url ++ "/process" ++ "/" ++ rid := by
  simp [SentinelHubBatch.getProcessUrl, pyTruthy, pyStr, h]

/-- C8: the URLs built by the client follow the exact hierarchy base batch URL →
`/process`, `/process/{id}`, `/process/{id}/{action}`, `/process/{id}/tiles[/{tileId}]`,
`/tilinggrids[/{id}]`, `/collections[/{id}]`, and every write-capable method uses the
verb matching its semantics: POST for create and job actions, PUT for `update` and
`update_collection`, DELETE for `delete` and `delete_collection`, GET for all reads. -/
theorem url_hierarchy_and_verbs (sh_base_url rid act tid gid cid : String)
    (info output description response : PyVal) (payload kwargs : Dict)
    (hrid : rid ≠ "") (htid : tid ≠ "") :
    (SentinelHubBatch.getProcessUrl sh_base_url PyVal.none =
      SentinelHubBatch.getBatchUrl sh_base_url ++ "/process") ∧
    (SentinelHubBatch.getProcessUrl sh_base_url (PyVal.str rid) =
      SentinelHubBatch.getBatchUrl sh_base_url ++ "/process" ++ "/" ++ rid) ∧
    ((SentinelHubBatch.call_job { request_id := PyVal.str rid, request_info := info }
        sh_base_url act).2.url =
      SentinelHubBatch.getBatchUrl sh_base_url ++ "/process" ++ "/" ++ rid ++ "/" ++ act) ∧
    (SentinelHubBatch.getTilesUrl sh_base_url (PyVal.str rid) PyVal.none =
      SentinelHubBatch.getBatchUrl sh_base_url ++ "/process" ++ "/" ++ rid ++ "/tiles") ∧
    (SentinelHubBatch.getTilesUrl sh_base_url (PyVal.str rid) (PyVal.str tid) =
      SentinelHubBatch.getBatchUrl sh_base_url ++ "/process" ++ "/" ++ rid ++ "/tiles"
        ++ "/" ++ tid) ∧
    (SentinelHubBatch.getTilingGridsUrl sh_base_url =
      SentinelHubBatch.getBatchUrl sh_base_url ++ "/tilinggrids") ∧
    ((SentinelHubBatch.get_tiling_grid_request sh_base_url gid).url =
      SentinelHubBatch.getBatchUrl sh_base_url ++ "/tilinggrids" ++ "/" ++ gid) ∧
    (SentinelHubBatch.getCollectionsUrl sh_base_url =
      SentinelHubBatch.getBatchUrl sh_base_url ++ "/collections") ∧
    ((SentinelHubBatch.get_collection_request sh_base_url cid).url =
      SentinelHubBatch.getBatchUrl sh_base_url ++ "/collections" ++ "/" ++ cid) ∧
    ((SentinelHubBatch.createRequest sh_base_url payload).request_type =
      RequestType.POST) ∧
    ((SentinelHubBatch.createRequest sh_base_url payload).url =
      SentinelHubBatch.getBatchUrl sh_base_url ++ "/process") ∧
    ((SentinelHubBatch.call_job { request_id := PyVal.str rid, request_info := info }
        sh_base_url act).2.request_type = RequestType.POST) ∧
    ((SentinelHubBatch.update { request_id := PyVal.str rid, request_info := info }
        sh_base_url output description kwargs response).2.request_type =
      RequestType.PUT) ∧
    ((SentinelHubBatch.update { request_id := PyVal.str rid, request_info := info }
        sh_base_url output description kwargs response).2.url =
      SentinelHubBatch.getBatchUrl sh_base_url ++ "/process" ++ "/" ++ rid) ∧
    ((SentinelHubBatch.delete { request_id := PyVal.str rid, request_info := info }
        sh_base_url).2.request_type = RequestType.DELETE) ∧
    ((SentinelHubBatch.delete { request_id := PyVal.str rid, request_info := info }
        sh_base_url).2.url =
      SentinelHubBatch.getBatchUrl sh_base_url ++ "/process" ++ "/" ++ rid) ∧
    ((SentinelHubBatch.update_collection_request sh_base_url cid payload).request_type =
      RequestType.PUT) ∧
    ((SentinelHubBatch.update_collection_request sh_base_url cid payload).url =
      SentinelHubBatch.getBatchUrl sh_base_url ++ "/collections" ++ "/" ++ cid) ∧
    ((SentinelHubBatch.delete_collection_request sh_base_url cid).request_type =
      RequestType.DELETE) ∧
    ((SentinelHubBatch.create_collection_request sh_base_url payload).request_type =
      RequestType.POST) ∧
    ((SentinelHubBatch.create_collection_request sh_base_url payload).url =
      SentinelHubBatch.getBatchUrl sh_base_url ++ "/collections") ∧
    ((SentinelHubBatch.update_info { request_id := PyVal.str rid, request_info := info }
        sh_base_url response).2.request_type = RequestType.GET) ∧
    ((SentinelHubBatch.get_tile_request sh_base_url (PyVal.str rid)
        (PyVal.str tid)).request_type = RequestType.GET) ∧
    ((SentinelHubBatch.iter_tiles_request sh_base_url (PyVal.str rid)).request_type =
      RequestType.GET) ∧
    ((SentinelHubBatch.get_tiling_grid_request sh_base_url gid).request_type =
      RequestType.GET) ∧
    ((SentinelHubBatch.get_collection_request sh_base_url cid).request_type =
      RequestType.GET) := by
  have hproc := getProcessUrl_of_ne sh_base_url rid hrid
  refine ⟨rfl, hproc, ?_, ?_, ?_, rfl, rfl, rfl, rfl, rfl, rfl, rfl, rfl, ?_, rfl, ?_,
    rfl, rfl, rfl, rfl, rfl, rfl, rfl, rfl, rfl, rfl⟩
  · simp [SentinelHubBatch.call_job, hproc]
  · simp [SentinelHubBatch.getTilesUrl, hproc, pyTruthy]
  · simp [SentinelHubBatch.getTilesUrl, hproc, pyTruthy, pyStr, htid]
  · simp [SentinelHubBatch.update, hproc]
  · simp [SentinelHubBatch.delete, hproc]

/-- Witness for C8 at concrete inputs. -/
theorem url_hierarchy_and_verbs_witness :
    (SentinelHubBatch.getProcessUrl "https://svc" (PyVal.str "job-1") =
      "https://svc" ++ "/api/v1/batch" ++ "/process" ++ "/" ++ "job-1") ∧
    (SentinelHubBatch.getTilesUrl "https://svc" (PyVal.str "job-1") (PyVal.str "7") =
      "https://svc" ++ "/api/v1/batch" ++ "/process" ++ "/" ++ "job-1" ++ "/tiles"
        ++ "/" ++ "7") ∧
    ((SentinelHubBatch.update
        { request_id := PyVal.str "job-1", request_info := PyVal.none } "https://svc"
        PyVal.none PyVal.none [] PyVal.none).2.request_type = RequestType.PUT) := by
  have h := url_hierarchy_and_verbs "https://svc" "job-1" "start" "7" "g" "c"
    PyVal.none PyVal.none PyVal.none PyVal.none [] [] (by decide) (by decide)
  exact ⟨h.2.1, h.2.2.2.2.1, h.2.2.2.2.2.2.2.2.2.2.2.2.1⟩

/-- C10: for a truthy tile id (any nonzero integer), `get_tile` addresses the per-tile
URL `/process/{id}/tiles/{tileId}` and `reprocess_tile` addresses the per-tile action URL
`/process/{id}/tiles/{tileId}/restart`; for the falsy tile id `0`, the tiles URL builder
omits the tile segment, so `get_tile(0)` addresses the whole tile-collection endpoint
`/process/{id}/tiles` — the same URL `iter_tiles` lists — instead of the tile with
id `0`. -/
theorem tile_id_truthiness (sh_base_url rid : String) (info : PyVal) (n : Int)
    (hrid : rid ≠ "") (hn : n ≠ 0) :
    ((SentinelHubBatch.get_tile_request sh_base_url (PyVal.str rid) (PyVal.int n)).url =
      SentinelHubBatch.getBatchUrl sh_base_url ++ "/process" ++ "/" ++ rid ++ "/tiles"
        ++ "/" ++ pyStr (PyVal.int n)) ∧
    ((SentinelHubBatch.reprocess_tile
        { request_id := PyVal.str rid, request_info := info } sh_base_url
        (PyVal.int n)).2.url =
      SentinelHubBatch.getBatchUrl sh_base_url ++ "/process" ++ "/" ++ rid ++ "/"
        ++ ("tiles/" ++ pyStr (PyVal.int n) ++ "/restart")) ∧
    ((SentinelHubBatch.get_tile_request sh_base_url (PyVal.str rid) (PyVal.int 0)).url =
      SentinelHubBatch.getBatchUrl sh_base_url ++ "/process" ++ "/" ++ rid
        ++ "/tiles") ∧
    ((SentinelHubBatch.get_tile_request sh_base_url (PyVal.str rid) (PyVal.int 0)).url =
      (SentinelHubBatch.iter_tiles_request sh_base_url (PyVal.str rid)).url) := by
  have hproc := getProcessUrl_of_ne sh_base_url rid hrid
  refine ⟨?_, ?_, ?_, rfl⟩
  · simp [SentinelHubBatch.get_tile_request, SentinelHubBatch.getTilesUrl, hproc,
      pyTruthy, hn]
  · simp [SentinelHubBatch.reprocess_tile, SentinelHubBatch.call_job, hproc]
  · simp [SentinelHubBatch.get_tile_request, SentinelHubBatch.getTilesUrl, hproc,
      pyTruthy]

/-- Witness for C10 at concrete inputs. -/
theorem tile_id_truthiness_witness :
    ((SentinelHubBatch.get_tile_request "https://svc" (PyVal.str "job-1")
        (PyVal.int 7)).url =
      "https://svc" ++ "/api/v1/batch" ++ "/process" ++ "/" ++ "job-1" ++ "/tiles"
        ++ "/" ++ pyStr (PyVal.int 7)) ∧
    ((SentinelHubBatch.get_tile_request "https://svc" (PyVal.str "job-1")
        (PyVal.int 0)).url =
      (SentinelHubBatch.iter_tiles_request "https://svc" (PyVal.str "job-1")).url) := by
  have h := tile_id_truthiness "https://svc" "job-1" PyVal.none 7 (by decide) (by decide)
  exact ⟨h.1, h.2.2.2⟩

/-- The query-parameter dict built by `SentinelHubBatch.iter_requests` (source lines
296-301). -/
def SentinelHubBatch.iter_requests_params (user_id search sort : PyVal)
    (kwargs : Dict) : Dict :=
  remove_undefined (dictUnion
    [("userid", user_id), ("search", search), ("sort", sort)] kwargs)

/-- The query parameters sent by `SentinelHubBatch.get_latest_request` (source lines
315-319): `sort='created:desc'` and `count=1`, no user or search filter. -/
def SentinelHubBatch.get_latest_request_params : Dict :=
  SentinelHubBatch.iter_requests_params PyVal.none PyVal.none (PyVal.str "created:desc")
    [("count", PyVal.int 1)]

/-- `SentinelHubBatch.get_latest_request` (source lines 311-323) over the feed of job
descriptions the service returns: `next` of the iterator wraps the first description in
a handle; an empty feed raises `ValueError` (from `StopIteration`). -/
def SentinelHubBatch.get_latest_request (feed : List PyVal) : Except PyError BatchState :=
  match feed with
  | [] => Except.error (.valueError "No batch request is available")
  | request_info :: _ => SentinelHubBatch.init PyVal.none request_info

/-- C7: `get_latest_request` requests exactly one job sorted by creation time descending
(query parameters `sort='created:desc'`, `count=1`), returns a handle wrapping the first
returned description, and raises a `ValueError` — rather than returning an absent
value — when the feed is empty. -/
theorem get_latest_request_spec (feed : List PyVal) :
    (SentinelHubBatch.get_latest_request_params =
      [("sort", PyVal.str "created:desc"), ("count", PyVal.int 1)]) ∧
    (SentinelHubBatch.get_latest_request [] =
      Except.error (.valueError "No batch request is available")) ∧
    (∀ d v rest, feed = PyVal.dict d :: rest → dictLookup d "id" = some v →
      SentinelHubBatch.get_latest_request feed =
        Except.ok { request_id := v, request_info := PyVal.dict d }) := by
  refine ⟨rfl, rfl, ?_⟩
  intro d v rest hfeed hv
  subst hfeed
  have hd : d ≠ [] := by
    intro h
    subst h
    simp [dictLookup] at hv
  have htruthy : pyTruthy (PyVal.dict d) = true := by
    cases d with
    | nil => exact absurd rfl hd
    | cons p r => rfl
  simp [SentinelHubBatch.get_latest_request, SentinelHubBatch.init, htruthy, pyTruthy,
    pySubscript, hv, hd]

/-- Witness for C7 at concrete inputs. -/
theorem get_latest_request_spec_witness :
    (SentinelHubBatch.get_latest_request [] =
      Except.error (.valueError "No batch request is available")) ∧
    (SentinelHubBatch.get_latest_request [PyVal.dict [("id", PyVal.str "newest")]] =
      Except.ok { request_id := PyVal.str "newest",
                  request_info := PyVal.dict [("id", PyVal.str "newest")] }) := by
  have h := get_latest_request_spec [PyVal.dict [("id", PyVal.str "newest")]]
  exact ⟨h.2.1, h.2.2 [("id", PyVal.str "newest")] (PyVal.str "newest") [] rfl rfl⟩

/-- A tile record from the tiles feed: its status (`tile['status']`, the grouping key of
`get_batch_tiles_per_status`) together with the rest of its payload. -/
structure Tile where
  status : String
  payload : Dict

/-- `tiles_per_status.get(status, [])` (source line 674). -/
def tpsGet (tps : List (String × List Tile)) (status : String) : List Tile :=
  match tps.find? (fun p => p.1 == status) with
  | some p => p.2
  | Option.none => []

/-- `tiles_per_status[status] = l`: replace in place when the key exists, append
otherwise — Python dict assignment. -/
def tpsSet (tps : List (String × List Tile)) (status : String) (l : List Tile) :
    List (String × List Tile) :=
  if tps.any (fun p => p.1 == status) then
    tps.map (fun p => if p.1 == status then (p.1, l) else p)
  else tps ++ [(status, l)]

/-- `get_batch_tiles_per_status` (source lines 663-677): groups the tiles of one feed
traversal by their status, keeping encounter order. -/
def get_batch_tiles_per_status (tiles : List Tile) : List (String × List Tile) :=
  tiles.foldl
    (fun tps tile => tpsSet tps tile.status (tpsGet tps tile.status ++ [tile])) []

/-- The pre-processing statuses of the analysis wait loop (source line 704). -/
def analysisStatusList : List String :=
  ["CREATED", "ANALYSING", "ANALYSIS_DONE"]

/-- The failure statuses checked after the analysis wait (source line 710). -/
def failureStatusList : List String :=
  ["FAILED", "CANCELED"]

/-- The environment a `monitor_batch_job` run interacts with: the job id, the
description returned by the n-th `update_info` call, and the tile list returned by the
n-th `iter_tiles` traversal. -/
structure MonitorEnv where
  request_id : PyVal
  infos : Nat → BatchInfo
  tileLists : Nat → List Tile

/-- The analysis wait loop of `monitor_batch_job` (source lines 702-708), indexed by
fuel: starting from the `i`-th `update_info` result, sleep-and-refresh while the status
is a pre-processing one; returns the index and value of the description observed on
leaving the loop, or `Option.none` when the fuel runs out first. -/
def analysisPhase (env : MonitorEnv) : Nat → Nat → Option (Nat × BatchInfo)
  | 0, i =>
    if (env.infos i).status ∈ analysisStatusList then Option.none
    else some (i, env.infos i)
  | fuel + 1, i =>
    if (env.infos i).status ∈ analysisStatusList then analysisPhase env fuel (i + 1)
    else some (i, env.infos i)

/-- The Python locals assigned only inside the body of the sampling loop of
`monitor_batch_job` (source lines 720-722); after zero iterations they are unbound. -/
structure TileLoopVars where
  tiles_per_status : List (String × List Tile)
  processed_tiles_num : Nat
  failed_tiles_num : Nat

/-- The tile sampling loop of `monitor_batch_job` (source lines 719-737), indexed by
fuel: while `finished_count < total_tile_count`, fetch the `j`-th tile list, group it,
and recompute the counters.  Returns the number of tile-listing calls made together with
the loop-body locals (`Option.none` inside when the body never ran), or `Option.none`
when the fuel runs out first. -/
def tileLoop (env : MonitorEnv) (total_tile_count : Nat) :
    Nat → Nat → Nat → Option TileLoopVars → Option (Nat × Option TileLoopVars)
  | 0, j, finished_count, vars =>
    if finished_count < total_tile_count then Option.none else some (j, vars)
  | fuel + 1, j, finished_count, vars =>
    if finished_count < total_tile_count then
      let tps := get_batch_tiles_per_status (env.tileLists j)
      let processed_tiles_num := (tpsGet tps "PROCESSED").length
      let failed_tiles_num := (tpsGet tps "FAILED").length
      tileLoop env total_tile_count fuel (j + 1)
        (processed_tiles_num + failed_tiles_num)
        (some { tiles_per_status := tps, processed_tiles_num := processed_tiles_num,
                failed_tiles_num := failed_tiles_num })
    else some (j, vars)

/-- How a `monitor_batch_job` run ends: the `RuntimeError` raised by
`raise_for_status`, a `NameError` from the final report reading loop locals that were
never assigned, or a normal return carrying the final status→tiles mapping and the count
passed to the "Batch job failed for %d tiles" log message (`Option.none` when no such
message is logged). -/
inductive MonitorOutcome where
  | raised (msg : String)
  | nameError
  | finished (tiles_per_status : List (String × List Tile)) (failedLog : Option Nat)

/-- `monitor_batch_job` (source lines 680-741) against an environment of server
responses, with fuel bounds on the two loops.  Returns the outcome paired with the
number of tile-listing calls made, or `Option.none` when a loop exhausts its fuel.
Observational faithfulness notes: the failure log (source lines 739-740) passes
`processed_tiles_num` as the `%d` argument; the progress bars are display-only and are
not modelled. -/
def monitor_batch_job (env : MonitorEnv) (fuel1 fuel2 : Nat) :
    Option (MonitorOutcome × Nat) :=
  match analysisPhase env fuel1 0 with
  | Option.none => Option.none
  | some (_, info) =>
    match SentinelHubBatch.raise_for_status env.request_id info
        (.list failureStatusList) with
    | Except.error (.runtimeError msg) => some (.raised msg, 0)
    | _ =>
      let total_tile_count := info.tileCount
      match tileLoop env total_tile_count fuel2 0 0 Option.none with
      | Option.none => Option.none
      | some (j, Option.none) => some (.nameError, j)
      | some (j, some vars) =>
        some (.finished vars.tiles_per_status
          (if vars.failed_tiles_num ≠ 0 then some vars.processed_tiles_num
           else Option.none), j)

theorem tileLoop_zero_total (env : MonitorEnv) (fuel j : Nat)
    (vars : Option TileLoopVars) :
    tileLoop env 0 fuel j 0 vars = some (j, vars) := by
  cases fuel <;> simp [tileLoop]

/-- C3: in every execution of `monitor_batch_job`, if the status observed on leaving the
pre-processing states is `FAILED` or `CANCELED`, the routine raises the `RuntimeError`
immediately and the number of tile-listing calls made in that execution is zero. -/
theorem monitor_raises_before_tiles (env : MonitorEnv) (fuel1 fuel2 i : Nat)
    (info : BatchInfo) (h : analysisPhase env fuel1 0 = some (i, info))
    (hf : info.status ∈ failureStatusList) :
    monitor_batch_job env fuel1 fuel2 =
      some (.raised (raiseMessage env.request_id info), 0) := by
  unfold monitor_batch_job
  rw [h]
  simp [SentinelHubBatch.raise_for_status, hf]

/-- Witness environment for C3: the job reports `ANALYSING` and then `FAILED`. -/
def envFailedAfterAnalysis : MonitorEnv :=
  { request_id := PyVal.str "job-1",
    infos := fun n =>
      if n = 0 then { status := "ANALYSING", error := Option.none, tileCount := 3 }
      else { status := "FAILED", error := some "boom", tileCount := 3 },
    tileLists := fun _ => [] }

/-- Witness for C3 at a concrete environment. -/
theorem monitor_raises_before_tiles_witness :
    monitor_batch_job envFailedAfterAnalysis 2 5 =
      some (.raised (raiseMessage (PyVal.str "job-1")
        { status := "FAILED", error := some "boom", tileCount := 3 }), 0) :=
  monitor_raises_before_tiles envFailedAfterAnalysis 2 5 1
    { status := "FAILED", error := some "boom", tileCount := 3 } rfl (by decide)

/-- C9: a `monitor_batch_job` execution whose post-analysis status is not a failure
state and whose job description reports `tileCount = 0` skips the sampling loop body
entirely and ends in a `NameError` — the final report reads loop locals that were never
assigned — without ever listing tiles; consequently a normal return is only reached when
`tileCount` is at least 1. -/
theorem monitor_zero_tiles_name_error (env : MonitorEnv) (fuel1 fuel2 i : Nat)
    (info : BatchInfo) (h : analysisPhase env fuel1 0 = some (i, info)) :
    (info.status ∉ failureStatusList → info.tileCount = 0 →
      monitor_batch_job env fuel1 fuel2 = some (.nameError, 0)) ∧
    (∀ tps failedLog j,
      monitor_batch_job env fuel1 fuel2 = some (.finished tps failedLog, j) →
      1 ≤ info.tileCount) := by
  constructor
  · intro hs h0
    unfold monitor_batch_job
    rw [h]
    simp [SentinelHubBatch.raise_for_status, hs, h0, tileLoop_zero_total]
  · intro tps failedLog j hm
    by_contra hge
    have h0 : info.tileCount = 0 := by omega
    by_cases hs : info.status ∈ failureStatusList
    · unfold monitor_batch_job at hm
      rw [h] at hm
      simp [SentinelHubBatch.raise_for_status, hs] at hm
    · unfold monitor_batch_job at hm
      rw [h] at hm
      simp [SentinelHubBatch.raise_for_status, hs, h0, tileLoop_zero_total] at hm

/-- Witness environment for C9: a zero-tile job whose status is already terminal. -/
def envZeroTiles : MonitorEnv :=
  { request_id := PyVal.str "job-1",
    infos := fun _ => { status := "DONE", error := Option.none, tileCount := 0 },
    tileLists := fun _ => [] }

/-- Witness for C9 at a concrete environment. -/
theorem monitor_zero_tiles_name_error_witness :
    monitor_batch_job envZeroTiles 1 5 = some (.nameError, 0) :=
  (monitor_zero_tiles_name_error envZeroTiles 1 5 0
    { status := "DONE", error := Option.none, tileCount := 0 } rfl).1 (by decide) rfl

/-- Concrete tiles for the C1 run: two processed, one failed. -/
def tileP1 : Tile := { status := "PROCESSED", payload := [("id", PyVal.int 1)] }

/-- Second processed tile of the C1 run. -/
def tileP2 : Tile := { status := "PROCESSED", payload := [("id", PyVal.int 2)] }

/-- The failed tile of the C1 run. -/
def tileF3 : Tile := { status := "FAILED", payload := [("id", PyVal.int 3)] }

/-- Environment for the C1 run: a three-tile job that finishes with two processed tiles
and one failed tile. -/
def envMixedTiles : MonitorEnv :=
  { request_id := PyVal.str "job-1",
    infos := fun _ => { status := "DONE", error := Option.none, tileCount := 3 },
    tileLists := fun _ => [tileP1, tileP2, tileF3] }

/-- C1 (code-bug evidence): on a terminal run with two processed and one failed tile,
`monitor_batch_job` does return the final status→tiles mapping, but the count it passes
to the "Batch job failed for %d tiles" log message is `processed_tiles_num` (source line
740), i.e. `2`, while the number of failed tiles in that same mapping is `1` — the
logged count does not equal the number of failed tiles. -/
theorem monitor_failed_log_reports_processed_count :
    (monitor_batch_job envMixedTiles 1 2 =
      some (.finished [("PROCESSED", [tileP1, tileP2]), ("FAILED", [tileF3])]
        (some 2), 1)) ∧
    ((tpsGet [("PROCESSED", [tileP1, tileP2]), ("FAILED", [tileF3])] "FAILED").length
      = 1) ∧
    (2 ≠ 1) := by
  exact ⟨rfl, rfl, by decide⟩
